import Mathlib

/-!
Verification of the keygen-go client SDK core: the response-classification
pipeline in `Client.send`, the `License.Validate` validation-result-code
mapping (in its two versions, `license.go` and the older unnamed copy),
and the `License.Verify` unsigned-license short-circuit.

The embedding is shallow: HTTP collaborators (the transport, the response
signature verifier, the jsonapi unmarshaller) are passed in as explicit
function arguments, and the classification logic of `Client.send` that runs
after the body has been read is modelled as a pure function of the response
plus those collaborators. Strings are modelled as `List Char` where Go
slices bytes (the bodies used here are ASCII, where the two coincide).
-/

namespace Keygen

/-- Modelled from the spec: the validation-result code string constants
(`ValidationCode*`) are declared in a repository file not present in the
excerpt; only their names appear in `License.Validate`. The spec describes
them as a fixed enumeration of distinct string codes, so they are modelled
as distinct strings named after the remote code each constant denotes. -/
def ValidationCodeValid : String := "VALID"

def ValidationCodeNotFound : String := "NOT_FOUND"

def ValidationCodeSuspended : String := "SUSPENDED"

def ValidationCodeExpired : String := "EXPIRED"

def ValidationCodeOverdue : String := "OVERDUE"

def ValidationCodeNoMachine : String := "NO_MACHINE"

def ValidationCodeNoMachines : String := "NO_MACHINES"

def ValidationCodeTooManyMachines : String := "TOO_MANY_MACHINES"

def ValidationCodeTooManyCores : String := "TOO_MANY_CORES"

def ValidationCodeTooManyProcesses : String := "TOO_MANY_PROCESSES"

def ValidationCodeFingerprintScopeRequired : String := "FINGERPRINT_SCOPE_REQUIRED"

def ValidationCodeFingerprintScopeMismatch : String := "FINGERPRINT_SCOPE_MISMATCH"

def ValidationCodeFingerprintScopeEmpty : String := "FINGERPRINT_SCOPE_EMPTY"

def ValidationCodeHeartbeatNotStarted : String := "HEARTBEAT_NOT_STARTED"

def ValidationCodeHeartbeatDead : String := "HEARTBEAT_DEAD"

def ValidationCodeProductScopeRequired : String := "PRODUCT_SCOPE_REQUIRED"

def ValidationCodeProductScopeEmpty : String := "PRODUCT_SCOPE_EMPTY"

/-- Modelled from the spec: the `ErrorCode*` constants used by the
remote-problem switch in `Client.send` are declared outside the excerpt;
the switch only needs their names, modelled as distinct strings. -/
def ErrorCodeMachineHeartbeatDead : String := "MACHINE_HEARTBEAT_DEAD"

def ErrorCodeProcessHeartbeatDead : String := "PROCESS_HEARTBEAT_DEAD"

def ErrorCodeFingerprintTaken : String := "FINGERPRINT_TAKEN"

def ErrorCodeMachineLimitExceeded : String := "MACHINE_LIMIT_EXCEEDED"

def ErrorCodeProcessLimitExceeded : String := "PROCESS_LIMIT_EXCEEDED"

def ErrorCodeTokenInvalid : String := "TOKEN_INVALID"

def ErrorCodeLicenseInvalid : String := "LICENSE_INVALID"

def ErrorCodeNotFound : String := "NOT_FOUND"

/-- One structured error object reported by the service in a response
envelope (`doc.Errors[i]` in `Client.send`): title, detail, code and
source pointer. -/
structure RemoteProblem where
  title : String
  detail : String
  code : String
  pointer : String
deriving Repr, DecidableEq

/-- The decoded jsonapi document, as far as classification consumes it:
`jsonapi.Unmarshal` yields a document whose `Errors` list drives the
remote-problem inspection stage. -/
structure Document where
  errors : List RemoteProblem
deriving Repr, DecidableEq

/-- The rate-limit headers read by the 429 branch of `Client.send`.
Go's `http.Header.Get` returns `""` for a missing header, modelled by
`Option String` plus `HeaderVals.get`. -/
structure HeaderVals where
  retryAfter : Option String
  window : Option String
  count : Option String
  limit : Option String
  remaining : Option String
  reset : Option String
deriving Repr, DecidableEq

/-- Models `http.Header.Get`: the header value, or the empty string when absent. -/
def HeaderVals.get (o : Option String) : String := o.getD ""

/-- The parts of the `Response` struct that the classification stages of
`Client.send` read: HTTP status, the rate-limit headers, and the raw body
(`Size` in the source is `len(Body)`, so it is not stored separately). -/
structure Response where
  status : Nat
  headers : HeaderVals
  body : List Char
deriving Repr, DecidableEq

/-- Models Go `strconv.ParseInt(s, 10, 64)` (and `strconv.Atoi` on a 64-bit
platform): an optional sign followed by at least one ASCII digit, the
value bounded to a signed 64-bit integer; anything else is an error
(`none`). -/
def goParseInt64 (s : String) : Option Int :=
  let decode : Bool → List Char → Option Int := fun neg digits =>
    if digits = [] ∨ ¬ digits.all Char.isDigit then none
    else
      let n : Nat := digits.foldl (fun a c => a * 10 + (c.toNat - 48)) 0
      let v : Int := if neg then -(n : Int) else (n : Int)
      if v < -(2 ^ 63) ∨ (2 ^ 63) ≤ v then none else some v
  match s.data with
  | [] => none
  | c :: rest =>
    if c = '-' then decode true rest
    else if c = '+' then decode false rest
    else decode false (c :: rest)

/-- Models `Response.tldr`: truncate the body to its first 500 bytes plus an
ellipsis when longer than 500 bytes, then replace every newline with the
two-character sequence backslash-n. -/
def Response.tldr (r : Response) : List Char :=
  let t := if 500 < r.body.length then r.body.take 500 ++ ['.', '.', '.'] else r.body
  t.flatMap (fun c => if c = '\n' then ['\\', 'n'] else [c])

/-- The typed errors `Client.send` can return from classification, with
the structured payload each carries in the source. `generic` is the bare
`*Error` value built from the first reported problem; `passthrough`
covers errors returned unchanged from a collaborator (signature
verification failure, jsonapi unmarshal failure). -/
inductive SendErr where
  | rateLimited (window : String) (count limit remaining : Int)
      (reset : Option Int) (retryAfter : Int)
  | serverFault (preview : List Char)
  | sigFailure (e : String)
  | malformed (e : String)
  | notAuthorized (p : RemoteProblem)
  | heartbeatDead
  | machineAlreadyActivated
  | machineLimitExceeded
  | processLimitExceeded
  | licenseToken (p : RemoteProblem)
  | licenseKey (p : RemoteProblem)
  | notFound (p : RemoteProblem)
  | generic (p : RemoteProblem)
deriving Repr, DecidableEq

/-- The `RateLimitError` built by the 429 branch of `Client.send`: each
integer field is populated only when its header parses (`strconv.Atoi`
succeeding), otherwise it keeps its zero value; `Reset` is
`time.Unix(i, 0)` when `X-RateLimit-Reset` parses, else the zero time
(modelled as `Option Int`). -/
def rateLimitErrorOf (h : HeaderVals) : SendErr :=
  .rateLimited (HeaderVals.get h.window)
    ((goParseInt64 (HeaderVals.get h.count)).getD 0)
    ((goParseInt64 (HeaderVals.get h.limit)).getD 0)
    ((goParseInt64 (HeaderVals.get h.remaining)).getD 0)
    (goParseInt64 (HeaderVals.get h.reset))
    ((goParseInt64 (HeaderVals.get h.retryAfter)).getD 0)

/-- The remote-problem code switch at the end of `Client.send`, entered
when the decoded document reports at least one problem and the status is
not 403. -/
def problemErrOf (p : RemoteProblem) : SendErr :=
  if p.code = ErrorCodeMachineHeartbeatDead ∨ p.code = ErrorCodeProcessHeartbeatDead then
    .heartbeatDead
  else if p.code = ErrorCodeFingerprintTaken then .machineAlreadyActivated
  else if p.code = ErrorCodeMachineLimitExceeded then .machineLimitExceeded
  else if p.code = ErrorCodeProcessLimitExceeded then .processLimitExceeded
  else if p.code = ErrorCodeTokenInvalid then .licenseToken p
  else if p.code = ErrorCodeLicenseInvalid then .licenseKey p
  else if p.code = ErrorCodeNotFound then .notFound p
  else .generic p

/-- The classification pipeline of `Client.send`, from the point where the
response body has been read. Collaborators are explicit: `publicKey` is
the configured client key (`""` when none), `verifyResponse` is
`verifier.VerifyResponse` (`some e` on failure), `unmarshal` is
`jsonapi.Unmarshal`. The first component of the result is
`response.Document` (attached only after a successful decode), the second
is the returned error. Stages, in source order: status 429, status ≥ 500,
signature verification when a key is configured, the 204/empty-body
short-circuit, structural decode, remote-problem inspection with the 403
special case, then the code switch. -/
def Client.sendClassify (publicKey : String)
    (verifyResponse : Response → Option String)
    (unmarshal : List Char → Except String Document)
    (r : Response) : Option Document × Option SendErr :=
  if r.status = 429 then
    (none, some (rateLimitErrorOf r.headers))
  else if 500 ≤ r.status then
    (none, some (.serverFault r.tldr))
  else
    match (if publicKey ≠ "" then verifyResponse r else none) with
    | some e => (none, some (.sigFailure e))
    | none =>
      if r.status = 204 ∨ r.body.length = 0 then
        (none, none)
      else
        match unmarshal r.body with
        | .error e => (none, some (.malformed e))
        | .ok doc =>
          match doc.errors with
          | [] => (some doc, none)
          | p :: _ =>
            if r.status = 403 then
              (some doc, some (.notAuthorized p))
            else
              (some doc, some (problemErrOf p))

/-- The errors `License.Validate` and `License.Verify` can return: the
sentinel license errors (`ErrLicense*`, `ErrValidation*`, `ErrHeartbeat*`,
`ErrLicenseNotSigned`) plus `passthrough` for a transport error the
function returns unchanged. -/
inductive VErr where
  | licenseInvalid
  | licenseNotActivated
  | licenseExpired
  | licenseSuspended
  | licenseTooManyMachines
  | licenseTooManyCores
  | licenseTooManyProcesses
  | validationFingerprintMissing
  | heartbeatRequired
  | heartbeatDead
  | validationProductMissing
  | licenseNotSigned
  | passthrough (e : String)
deriving Repr, DecidableEq

/-- The outcome of the `client.Post` call inside `License.Validate`:
either the transport/classification layer returned an error (with a flag
for whether it was a `*NotFoundError`), or the validation response
decoded, carrying the validation-result code string. -/
inductive ValidateInput where
  | netErr (isNotFound : Bool) (e : String)
  | response (code : String)
deriving Repr, DecidableEq

namespace LicenseGo

/-- The validation-result-code switch of `License.Validate` in
`src/license.go`: `none` for the valid code, otherwise the mapped error,
with the unlisted default falling to `ErrLicenseInvalid`. The cases mirror
the source's order. -/
def validateMap (code : String) : Option VErr :=
  if code = ValidationCodeValid then none
  else if code = ValidationCodeFingerprintScopeMismatch ∨
      code = ValidationCodeNoMachines ∨
      code = ValidationCodeNoMachine then some .licenseNotActivated
  else if code = ValidationCodeExpired then some .licenseExpired
  else if code = ValidationCodeSuspended then some .licenseSuspended
  else if code = ValidationCodeTooManyMachines then some .licenseTooManyMachines
  else if code = ValidationCodeTooManyCores then some .licenseTooManyCores
  else if code = ValidationCodeTooManyProcesses then some .licenseTooManyProcesses
  else if code = ValidationCodeFingerprintScopeRequired ∨
      code = ValidationCodeFingerprintScopeEmpty then some .validationFingerprintMissing
  else if code = ValidationCodeHeartbeatNotStarted then some .heartbeatRequired
  else if code = ValidationCodeHeartbeatDead then some .heartbeatDead
  else if code = ValidationCodeProductScopeRequired ∨
      code = ValidationCodeProductScopeEmpty then some .validationProductMissing
  else some .licenseInvalid

/-- Models `License.Validate` in `src/license.go` as a function of the post
outcome: a `*NotFoundError` from the client becomes `ErrLicenseInvalid`,
any other transport error is returned unchanged, and a decoded response
goes through the code switch. -/
def validateClassify : ValidateInput → Option VErr
  | .netErr true _ => some .licenseInvalid
  | .netErr false e => some (.passthrough e)
  | .response code => validateMap code

end LicenseGo

namespace Part000

/-- The validation-result-code switch of `License.Validate` in
`src/unnamed/part_000`: identical to the `license.go` version except that
it has no `ValidationCodeTooManyProcesses` case. -/
def validateMap (code : String) : Option VErr :=
  if code = ValidationCodeValid then none
  else if code = ValidationCodeFingerprintScopeMismatch ∨
      code = ValidationCodeNoMachines ∨
      code = ValidationCodeNoMachine then some .licenseNotActivated
  else if code = ValidationCodeExpired then some .licenseExpired
  else if code = ValidationCodeSuspended then some .licenseSuspended
  else if code = ValidationCodeTooManyMachines then some .licenseTooManyMachines
  else if code = ValidationCodeTooManyCores then some .licenseTooManyCores
  else if code = ValidationCodeFingerprintScopeRequired ∨
      code = ValidationCodeFingerprintScopeEmpty then some .validationFingerprintMissing
  else if code = ValidationCodeHeartbeatNotStarted then some .heartbeatRequired
  else if code = ValidationCodeHeartbeatDead then some .heartbeatDead
  else if code = ValidationCodeProductScopeRequired ∨
      code = ValidationCodeProductScopeEmpty then some .validationProductMissing
  else some .licenseInvalid

/-- Models `License.Validate` in `src/unnamed/part_000` as a function of the post
outcome; the transport-error handling is the same as in `license.go`. -/
def validateClassify : ValidateInput → Option VErr
  | .netErr true _ => some .licenseInvalid
  | .netErr false e => some (.passthrough e)
  | .response code => validateMap code

end Part000

/-- The fields of the `License` struct that `License.Verify` reads
(`Scheme`, plus identifying fields passed through to the verifier). -/
structure License where
  id : String
  key : String
  scheme : String
deriving Repr, DecidableEq

/-- Models `License.Verify` (identical in `src/license.go` and
`src/unnamed/part_000`): an empty `Scheme` returns
`(nil, ErrLicenseNotSigned)` before the verifier is built; otherwise the
verifier — constructed from the configured `PublicKey` — is invoked on
the license. `verifyLicense` models `verifier.VerifyLicense` as a
function of the key and the license. -/
def License.Verify (publicKey : String)
    (verifyLicense : String → License → Except VErr (List Char))
    (l : License) : Except VErr (List Char) :=
  if l.scheme = "" then .error .licenseNotSigned
  else verifyLicense publicKey l

/-! Helper lemmas about the newline escaping in `Response.tldr`. -/

theorem flatMapEsc_length_le (t : List Char) :
    (t.flatMap (fun c => if c = '\n' then ['\\', 'n'] else [c])).length ≤ 2 * t.length := by
  induction t with
  | nil => simp
  | cons a t ih =>
    simp only [List.flatMap_cons, List.length_append, List.length_cons]
    have h : (if a = '\n' then ['\\', 'n'] else [a]).length ≤ 2 := by
      split <;> simp
    omega

theorem flatMapEsc_no_newline (t : List Char) :
    ∀ c ∈ t.flatMap (fun c => if c = '\n' then ['\\', 'n'] else [c]), c ≠ '\n' := by
  intro c hc
  simp only [List.mem_flatMap] at hc
  obtain ⟨a, _, hca⟩ := hc
  by_cases h : a = '\n'
  · rw [if_pos h] at hca
    simp only [List.mem_cons, List.not_mem_nil, or_false] at hca
    rcases hca with h1 | h1 <;> (rw [h1]; decide)
  · rw [if_neg h] at hca
    simp only [List.mem_cons, List.not_mem_nil, or_false] at hca
    rw [hca]; exact h

theorem flatMapEsc_of_no_newline (t : List Char) (h : ∀ c ∈ t, c ≠ '\n') :
    t.flatMap (fun c => if c = '\n' then ['\\', 'n'] else [c]) = t := by
  induction t with
  | nil => rfl
  | cons a t ih =>
    simp only [List.flatMap_cons]
    rw [if_neg (h a (List.mem_cons_self a t)),
      ih (fun c hc => h c (List.mem_cons_of_mem a hc))]
    rfl

theorem tldr_no_newline (r : Response) : ∀ c ∈ r.tldr, c ≠ '\n' := by
  intro c hc
  exact flatMapEsc_no_newline _ c hc

theorem tldr_length_le (r : Response) :
    (r.tldr).length ≤ 2 * min r.body.length 500 + 3 := by
  show (List.flatMap _ _).length ≤ _
  by_cases h : 500 < r.body.length
  · rw [if_pos h, List.flatMap_append]
    have h1 : ((r.body.take 500).flatMap
        (fun c => if c = '\n' then ['\\', 'n'] else [c])).length ≤ 2 * 500 := by
      have hb := flatMapEsc_length_le (r.body.take 500)
      have h2 : (r.body.take 500).length = 500 := by
        rw [List.length_take]; omega
      omega
    have h3 : (['.', '.', '.'].flatMap
        (fun c => if c = '\n' then ['\\', 'n'] else [c])).length = 3 := by decide
    rw [List.length_append, h3]
    have h4 : min r.body.length 500 = 500 := by omega
    omega
  · rw [if_neg h]
    have hb := flatMapEsc_length_le r.body
    have h4 : min r.body.length 500 = r.body.length := by omega
    omega

/-! Sample collaborators and responses used by witnesses. -/

def noHdrs : HeaderVals := ⟨none, none, none, none, none, none⟩

def sampleHeaders : HeaderVals :=
  { retryAfter := some "30", window := none, count := some "oops",
    limit := none, remaining := some "0", reset := none }

def vrFail : Response → Option String := fun _ => some "signature mismatch"

def vrOk : Response → Option String := fun _ => none

def umEmpty : List Char → Except String Document := fun _ => .ok ⟨[]⟩

def r429 : Response := ⟨429, sampleHeaders, []⟩

def r503 : Response := ⟨503, noHdrs, ['o', 'k']⟩

def r200 : Response := ⟨200, noHdrs, ['x']⟩

def bodyA2000 : List Char := List.replicate 2000 'a'

def r503big : Response := ⟨503, noHdrs, bodyA2000⟩

/-! Shared lemmas about the transport-tier branches of the classifier. -/

theorem sendClassify_429 (pk : String)
    (vr : Response → Option String) (um : List Char → Except String Document)
    (r : Response) (h : r.status = 429) :
    Client.sendClassify pk vr um r = (none, some (rateLimitErrorOf r.headers)) := by
  simp [Client.sendClassify, h]

theorem sendClassify_500 (pk : String)
    (vr : Response → Option String) (um : List Char → Except String Document)
    (r : Response) (h : 500 ≤ r.status) :
    Client.sendClassify pk vr um r = (none, some (.serverFault r.tldr)) := by
  have h429 : ¬ r.status = 429 := by omega
  simp [Client.sendClassify, h429, h]

theorem tldr_2000a : r503big.tldr = List.replicate 500 'a' ++ ['.', '.', '.'] := by
  show List.flatMap _ _ = _
  have hlen : (500 : Nat) < bodyA2000.length := by
    rw [bodyA2000, List.length_replicate]; omega
  rw [show r503big.body = bodyA2000 from rfl, if_pos hlen]
  rw [bodyA2000, List.take_replicate]
  have hmin : min 500 2000 = 500 := by omega
  rw [hmin]
  apply flatMapEsc_of_no_newline
  intro c hc
  rcases List.mem_append.1 hc with h1 | h1
  · rw [List.eq_of_mem_replicate h1]; decide
  · simp only [List.mem_cons, List.not_mem_nil, or_false] at h1
    rcases h1 with h2 | h2 | h2 <;> (rw [h2]; decide)

/-! The claims. -/

/-- C1: classification in `Client.send` runs its stages in strict order and
the transport-tier stages are terminal: for a status-429 response the
result is the rate-limit error computed from the headers alone, and for a
status ≥ 500 response it is the server-fault error carrying the body
preview — in both cases with no document attached and independent of the
signature verifier and the unmarshaller (which therefore never influence,
and never run in, these branches). -/
theorem send_transport_tier_terminal (pk : String)
    (vr : Response → Option String) (um : List Char → Except String Document)
    (r : Response) :
    (r.status = 429 →
      Client.sendClassify pk vr um r = (none, some (rateLimitErrorOf r.headers))) ∧
    (500 ≤ r.status →
      Client.sendClassify pk vr um r = (none, some (.serverFault r.tldr))) :=
  ⟨sendClassify_429 pk vr um r, sendClassify_500 pk vr um r⟩

theorem send_transport_tier_terminal_witness :
    Client.sendClassify "key" vrFail umEmpty r429 =
      (none, some (rateLimitErrorOf r429.headers)) ∧
    Client.sendClassify "key" vrFail umEmpty r503 =
      (none, some (.serverFault r503.tldr)) :=
  ⟨(send_transport_tier_terminal "key" vrFail umEmpty r429).1 rfl,
   (send_transport_tier_terminal "key" vrFail umEmpty r503).2 (by decide)⟩

/-- C2: when a public key is configured, the transport-tier checks pass and
the response signature verifier fails with error `e`, `Client.send`
returns exactly that error, attaches no document to the response, and the
result does not depend on the unmarshaller — the body is never decoded
and the target model is never populated. -/
theorem send_sig_failure_terminal (pk : String)
    (vr : Response → Option String) (um um' : List Char → Except String Document)
    (r : Response) (e : String)
    (hpk : pk ≠ "") (h429 : r.status ≠ 429) (h500 : r.status < 500)
    (hv : vr r = some e) :
    Client.sendClassify pk vr um r = (none, some (.sigFailure e)) ∧
    Client.sendClassify pk vr um r = Client.sendClassify pk vr um' r := by
  have h : ¬ 500 ≤ r.status := by omega
  constructor <;> simp [Client.sendClassify, h429, h, hpk, hv]

theorem send_sig_failure_terminal_witness :
    Client.sendClassify "key" vrFail umEmpty r200 =
      (none, some (.sigFailure "signature mismatch")) :=
  (send_sig_failure_terminal "key" vrFail umEmpty umEmpty r200 "signature mismatch"
    (by decide) (by decide) (by decide) rfl).1

/-- C3: rate-limit classification is total — every status-429 response is
classified as a `RateLimitError` (never a panic or a different error
kind), its window taken verbatim from the header and each integer field
populated by parse-or-zero: a header parsing as an integer populates its
field, a missing or unparsable header leaves the zero value (the last two
conjuncts state that the parse-or-zero combinator used for every field
behaves that way). -/
theorem send_rate_limit_total (pk : String)
    (vr : Response → Option String) (um : List Char → Except String Document)
    (r : Response) (h : r.status = 429) :
    Client.sendClassify pk vr um r =
      (none, some (.rateLimited (HeaderVals.get r.headers.window)
        ((goParseInt64 (HeaderVals.get r.headers.count)).getD 0)
        ((goParseInt64 (HeaderVals.get r.headers.limit)).getD 0)
        ((goParseInt64 (HeaderVals.get r.headers.remaining)).getD 0)
        (goParseInt64 (HeaderVals.get r.headers.reset))
        ((goParseInt64 (HeaderVals.get r.headers.retryAfter)).getD 0))) ∧
    (∀ s i, goParseInt64 s = some i → (goParseInt64 s).getD 0 = i) ∧
    (∀ s, goParseInt64 s = none → (goParseInt64 s).getD 0 = 0) := by
  refine ⟨?_, ?_, ?_⟩
  · simp [Client.sendClassify, h, rateLimitErrorOf]
  · intro s i hs
    rw [hs]; rfl
  · intro s hs
    rw [hs]; rfl

theorem send_rate_limit_total_witness :
    Client.sendClassify "key" vrFail umEmpty r429 =
      (none, some (.rateLimited "" 0 0 0 none 30)) := by
  have h :=
    (send_rate_limit_total "key" vrFail umEmpty r429 rfl).1
  rw [h]
  decide

/-- C4 counterexample: the claim caps the server-fault body preview at 500
characters, but `Response.tldr` truncates to 500 characters and then
appends a three-character ellipsis, so a 2000-byte body yields a
503-character preview. -/
theorem send_server_fault_preview_counterexample :
    Client.sendClassify "" vrFail umEmpty r503big =
      (none, some (.serverFault r503big.tldr)) ∧
    (r503big.tldr).length = 503 ∧ ¬ ((r503big.tldr).length ≤ 500) := by
  have hlen : (r503big.tldr).length = 503 := by
    rw [tldr_2000a, List.length_append, List.length_replicate]
    rfl
  refine ⟨?_, hlen, ?_⟩
  · exact sendClassify_500 "" vrFail umEmpty r503big (by decide)
  · rw [hlen]
    decide

/-- C4 amended: for every status ≥ 500 response `Client.send` returns the
server-fault error carrying the `tldr` body preview; the preview contains
no newline character (embedded newlines are escaped to backslash-n), and
its length is at most `2 * min |body| 500 + 3` characters — at most 1003
in general, and at most 503 when the truncated body has no newlines,
rather than the 500 the claim states. -/
theorem send_server_fault_preview (pk : String)
    (vr : Response → Option String) (um : List Char → Except String Document)
    (r : Response) (h : 500 ≤ r.status) :
    Client.sendClassify pk vr um r = (none, some (.serverFault r.tldr)) ∧
    (∀ c ∈ r.tldr, c ≠ '\n') ∧
    (r.tldr).length ≤ 2 * min r.body.length 500 + 3 :=
  ⟨sendClassify_500 pk vr um r h, tldr_no_newline r, tldr_length_le r⟩

theorem send_server_fault_preview_witness :
    Client.sendClassify "key" vrOk umEmpty r503 =
      (none, some (.serverFault r503.tldr)) ∧
    (r503.tldr).length ≤ 2 * min r503.body.length 500 + 3 :=
  ⟨(send_server_fault_preview "key" vrOk umEmpty r503 (by decide)).1,
   (send_server_fault_preview "key" vrOk umEmpty r503 (by decide)).2.2⟩

/-- The validation-result codes that the switch in `License.Validate`
(`src/license.go`) names explicitly, including the valid code. -/
def listedValidationCodes : List String :=
  [ValidationCodeValid, ValidationCodeFingerprintScopeMismatch,
   ValidationCodeNoMachines, ValidationCodeNoMachine, ValidationCodeExpired,
   ValidationCodeSuspended, ValidationCodeTooManyMachines,
   ValidationCodeTooManyCores, ValidationCodeTooManyProcesses,
   ValidationCodeFingerprintScopeRequired, ValidationCodeFingerprintScopeEmpty,
   ValidationCodeHeartbeatNotStarted, ValidationCodeHeartbeatDead,
   ValidationCodeProductScopeRequired, ValidationCodeProductScopeEmpty]

/-- C5: the validation-result-code mapping of `License.Validate` is total —
for every possible code string it produces exactly one outcome, always
drawn from the closed set of license error kinds (or no error, for the
valid code), and every code not explicitly listed in the switch maps to
the generic `ErrLicenseInvalid` fallback. -/
theorem validateMap_total (code : String) :
    LicenseGo.validateMap code ∈
      ([none, some .licenseInvalid, some .licenseNotActivated,
        some .licenseExpired, some .licenseSuspended,
        some .licenseTooManyMachines, some .licenseTooManyCores,
        some .licenseTooManyProcesses, some .validationFingerprintMissing,
        some .heartbeatRequired, some .heartbeatDead,
        some .validationProductMissing] : List (Option VErr)) ∧
    (code ∉ listedValidationCodes →
      LicenseGo.validateMap code = some .licenseInvalid) := by
  constructor
  · unfold LicenseGo.validateMap
    repeat' split
    all_goals simp
  · intro hmem
    simp only [listedValidationCodes, List.mem_cons, List.not_mem_nil,
      or_false, not_or] at hmem
    obtain ⟨h1, h2, h3, h4, h5, h6, h7, h8, h9, h10, h11, h12, h13, h14, h15⟩ := hmem
    simp [LicenseGo.validateMap, h1, h2, h3, h4, h5, h6, h7, h8, h9, h10,
      h11, h12, h13, h14, h15]

theorem validateMap_total_witness :
    ("NO_SUCH_CODE" ∉ listedValidationCodes) ∧
    LicenseGo.validateMap "NO_SUCH_CODE" = some .licenseInvalid :=
  ⟨by decide, (validateMap_total "NO_SUCH_CODE").2 (by decide)⟩

/-- C6: the too-many-processes validation code maps to the dedicated
`ErrLicenseTooManyProcesses` error kind in `License.Validate`
(`src/license.go`), not to the generic invalid fallback. -/
theorem validateMap_too_many_processes :
    LicenseGo.validateMap ValidationCodeTooManyProcesses =
      some .licenseTooManyProcesses ∧
    some VErr.licenseTooManyProcesses ≠ some VErr.licenseInvalid := by
  constructor
  · decide
  · decide

/-- C7: the three codes for no machines attached, no matching machine and
fingerprint scope mismatch all map to the single error kind
`ErrLicenseNotActivated`, in both versions of `License.Validate`. -/
theorem validateMap_not_activated_group :
    (LicenseGo.validateMap ValidationCodeNoMachines = some .licenseNotActivated ∧
     LicenseGo.validateMap ValidationCodeNoMachine = some .licenseNotActivated ∧
     LicenseGo.validateMap ValidationCodeFingerprintScopeMismatch =
       some .licenseNotActivated) ∧
    (Part000.validateMap ValidationCodeNoMachines = some .licenseNotActivated ∧
     Part000.validateMap ValidationCodeNoMachine = some .licenseNotActivated ∧
     Part000.validateMap ValidationCodeFingerprintScopeMismatch =
       some .licenseNotActivated) := by
  refine ⟨⟨?_, ?_, ?_⟩, ⟨?_, ?_, ?_⟩⟩ <;> decide

/-- C8: for every status-403 response that reaches the remote-problem
inspection stage (transport-tier checks passed, signature verification
passed or no key configured, non-empty body, body decoded to a document
reporting at least one problem), `Client.send` returns a
`NotAuthorizedError` built from the first reported problem — whatever
remote error code that problem carries, the 403 special case takes
precedence over the code-to-kind table. -/
theorem send_forbidden_not_authorized (pk : String)
    (vr : Response → Option String) (um : List Char → Except String Document)
    (r : Response) (doc : Document) (p : RemoteProblem) (rest : List RemoteProblem)
    (h403 : r.status = 403)
    (hsig : pk ≠ "" → vr r = none)
    (hbody : r.body.length ≠ 0)
    (hdec : um r.body = .ok doc)
    (herr : doc.errors = p :: rest) :
    Client.sendClassify pk vr um r = (some doc, some (.notAuthorized p)) := by
  have h429 : ¬ r.status = 429 := by omega
  have h500 : ¬ 500 ≤ r.status := by omega
  have hv : (if pk ≠ "" then vr r else none) = none := by
    by_cases hp : pk = ""
    · simp [hp]
    · simp [hp, hsig hp]
  have hshort : ¬ (r.status = 204 ∨ r.body.length = 0) := by
    push_neg
    exact ⟨by omega, hbody⟩
  have hnil : ¬ r.body = [] := fun hb => hbody (by rw [hb]; rfl)
  simp [Client.sendClassify, h429, h500, hv, hshort, hnil, hdec, herr, h403]

def problemBadToken : RemoteProblem :=
  ⟨"Forbidden", "Token scope", ErrorCodeTokenInvalid, "/data"⟩

def umProblem : List Char → Except String Document :=
  fun _ => .ok ⟨[problemBadToken]⟩

def r403 : Response := ⟨403, noHdrs, ['{', '}']⟩

theorem send_forbidden_not_authorized_witness :
    Client.sendClassify "key" vrOk umProblem r403 =
      (some ⟨[problemBadToken]⟩, some (.notAuthorized problemBadToken)) :=
  send_forbidden_not_authorized "key" vrOk umProblem r403 ⟨[problemBadToken]⟩
    problemBadToken [] rfl (fun _ => rfl) (by decide) rfl rfl

/-- C9 counterexample: the two versions of `License.Validate` are not
behaviour-equivalent — on a validation response whose result code is the
too-many-processes code, the `src/license.go` version returns
`ErrLicenseTooManyProcesses` while the `src/unnamed/part_000` version,
whose switch has no such case, returns the generic `ErrLicenseInvalid`. -/
theorem validate_equivalence_counterexample :
    LicenseGo.validateClassify (.response ValidationCodeTooManyProcesses) =
      some .licenseTooManyProcesses ∧
    Part000.validateClassify (.response ValidationCodeTooManyProcesses) =
      some .licenseInvalid ∧
    (some VErr.licenseTooManyProcesses ≠ some VErr.licenseInvalid) := by
  refine ⟨?_, ?_, ?_⟩ <;> decide

/-- C9 amended: on every post outcome except a response carrying the
too-many-processes code, the two versions of `License.Validate` return
the same error kind (the `src/license.go` version additionally records
the result in the `LastValidation` field, which the `part_000` `License`
struct does not have). -/
theorem validate_equivalence_amended (input : ValidateInput)
    (h : input ≠ .response ValidationCodeTooManyProcesses) :
    LicenseGo.validateClassify input = Part000.validateClassify input := by
  match input with
  | .netErr true e => rfl
  | .netErr false e => rfl
  | .response code =>
    have hc : code ≠ ValidationCodeTooManyProcesses := by
      intro hh
      exact h (by rw [hh])
    show LicenseGo.validateMap code = Part000.validateMap code
    unfold LicenseGo.validateMap Part000.validateMap
    simp only [hc, if_false]

theorem validate_equivalence_amended_witness :
    LicenseGo.validateClassify (.response ValidationCodeExpired) =
      Part000.validateClassify (.response ValidationCodeExpired) :=
  validate_equivalence_amended (.response ValidationCodeExpired) (by decide)

/-- C10: for every license whose scheme is empty, `License.Verify`
returns `ErrLicenseNotSigned` (with no dataset), and the result does not
depend on the verifier or on the configured public key — the verifier is
never invoked and the key never consulted, so an unsigned license can
never surface a signature-mismatch or key-missing error. -/
theorem verify_unsigned_short_circuit (pk pk' : String)
    (vf vf' : String → License → Except VErr (List Char)) (l : License)
    (h : l.scheme = "") :
    License.Verify pk vf l = .error .licenseNotSigned ∧
    License.Verify pk vf l = License.Verify pk' vf' l := by
  constructor <;> simp [License.Verify, h]

def vfMismatch : String → License → Except VErr (List Char) :=
  fun _ _ => .error (.passthrough "license key not genuine")

def lUnsigned : License := ⟨"lic_1", "SOMEKEY", ""⟩

theorem verify_unsigned_short_circuit_witness :
    License.Verify "e1ed" vfMismatch lUnsigned = .error .licenseNotSigned ∧
    License.Verify "e1ed" vfMismatch lUnsigned =
      License.Verify "" (fun _ _ => .ok []) lUnsigned :=
  verify_unsigned_short_circuit "e1ed" "" vfMismatch (fun _ _ => .ok []) lUnsigned rfl

end Keygen
